import Mathlib

/-!
Verification of `simulador_streamlit.py` (solar-benefit dashboard for
Leticia, Colombia) against its natural-language specification.

Modelling conventions:
* Python floats are modelled by exact rationals (`ℚ`).  Every arithmetic
  expression appearing in the claims is exactly representable, so the
  spec's "within 1e-9 relative tolerance" comparisons become exact
  equalities here.
* Python float division raises `ZeroDivisionError` when the divisor is
  zero; we model fallible computations with `Except ScriptError`.
* The pandas `DataFrame` of demand records is modelled as a
  `List DemandRecord`; `sort_values("Fecha")` is `List.mergeSort`,
  column selection/filtering is `List.filter`, `head` is `List.take`,
  and the in-place column assignment `df["Tipo"] = df["Tipo"].str.capitalize()`
  is a `List.map` producing the data frame's new contents.
* The Streamlit render surface is modelled as an ordered list of
  `RenderEvent`s emitted by a straight-line `run_script` function that
  mirrors the script top to bottom and stops at the first uncaught
  exception (missing column, division by zero).
-/

/-- A row of `demanda_historica_y_predicha.csv` as loaded at line 7 of the
script: a parsed date (`Fecha`, modelled as an ordinal day number), the
demand value (`ACTIVA`) and the kind label (`Tipo`). -/
structure DemandRecord where
  fecha : Nat
  activa : ℚ
  tipo : String
deriving Repr, DecidableEq

/-- The six numeric simulation parameters read from the sidebar
(lines 13-28): irradiance `H`, performance ratio `PR`, horizon `dias`
(parsed from the selectbox), and the three diesel constants. -/
structure Params where
  H : ℚ
  PR : ℚ
  dias : Nat
  kwh_por_litro : ℚ
  co2_por_litro : ℚ
  cop_diesel : ℚ
deriving Repr, DecidableEq

/-- The three independent scenario checkboxes (lines 20-24). -/
structure Escenarios where
  pequena : Bool
  mediana : Bool
  grande : Bool
deriving Repr, DecidableEq

/-- One entry of the `resultados` list: the dict appended by
`calcular_beneficios` (lines 96-102). -/
structure Beneficios where
  escenario : String
  energia : ℚ
  diesel : ℚ
  co2 : ℚ
  ahorro : ℚ
deriving Repr, DecidableEq

/-- Uncaught Python exceptions the script can die with. -/
inductive ScriptError where
  | missingColumn (col : String)
  | zeroDivision
deriving Repr, DecidableEq

/-- `energia_generada_kwh = capacidad_kw * H * PR * dias` (line 90). -/
def energia_generada_kwh (p : Params) (capacidad_kw : ℚ) : ℚ :=
  capacidad_kw * p.H * p.PR * (p.dias : ℚ)

/-- `diesel_ahorrado_l = energia_generada_kwh / kwh_por_litro` (line 91);
only meaningful when `kwh_por_litro ≠ 0` (the caller guards). -/
def diesel_ahorrado_l (p : Params) (capacidad_kw : ℚ) : ℚ :=
  energia_generada_kwh p capacidad_kw / p.kwh_por_litro

/-- `co2_ev_l = diesel_ahorrado_l * co2_por_litro` (line 92). -/
def co2_ev_l (p : Params) (capacidad_kw : ℚ) : ℚ :=
  diesel_ahorrado_l p capacidad_kw * p.co2_por_litro

/-- `ahorro_cop = diesel_ahorrado_l * cop_diesel` (line 93). -/
def ahorro_cop (p : Params) (capacidad_kw : ℚ) : ℚ :=
  diesel_ahorrado_l p capacidad_kw * p.cop_diesel

/-- The arithmetic part of `calcular_beneficios` (lines 90-93): the four
derived metrics, failing with Python's `ZeroDivisionError` exactly when
`kwh_por_litro = 0` (a Python float division by zero raises; it never
returns infinity or NaN). -/
def calcular_beneficios_core (p : Params) (capacidad_kw : ℚ) (label : String) :
    Except ScriptError Beneficios :=
  if p.kwh_por_litro = 0 then
    .error .zeroDivision
  else
    .ok { escenario := label
          energia := energia_generada_kwh p capacidad_kw
          diesel := diesel_ahorrado_l p capacidad_kw
          co2 := co2_ev_l p capacidad_kw
          ahorro := ahorro_cop p capacidad_kw }

/-- The whole of `calcular_beneficios` (lines 88-107) with its side effect
made explicit: it computes the four metrics and itself appends the result
dict to the surrounding mutable `resultados` list, returning the list's
new contents. -/
def calcular_beneficios (p : Params) (capacidad_kw : ℚ) (label : String)
    (resultados : List Beneficios) : Except ScriptError (List Beneficios) :=
  (calcular_beneficios_core p capacidad_kw label).map fun b => resultados ++ [b]

/-- The parameter values of the spec's end-to-end scenario (also the
sidebar defaults): H=4.5, PR=0.80, 30 days, 3.0 kWh/L, 2.2 kg CO2/L,
2553.59 COP/L. -/
def paramsE2E : Params :=
  { H := 9/2, PR := 4/5, dias := 30,
    kwh_por_litro := 3, co2_por_litro := 11/5, cop_diesel := 255359/100 }

/-- C1: for parameters in the specified ranges and positive constants the
calculation returns exactly the four closed-form values, and the concrete
end-to-end scenario (1000 kW, H=4.5, PR=0.80, 30 days, 3.0 kWh/L,
2.2 kg/L, 2553.59 COP/L) yields energy 108000 kWh, 36000 L diesel,
79200 kg CO₂ and cost 91929240.00 COP. -/
theorem C1_beneficios_formulas (p : Params) (capacidad_kw : ℚ) (label : String)
    (hcap : 0 ≤ capacidad_kw) (hH₁ : 1 ≤ p.H) (hH₂ : p.H ≤ 8)
    (hPR₁ : 3/5 ≤ p.PR) (hPR₂ : p.PR ≤ 19/20)
    (hdias : p.dias = 7 ∨ p.dias = 15 ∨ p.dias = 30)
    (hk : 0 < p.kwh_por_litro) (hco2 : 0 < p.co2_por_litro)
    (hcop : 0 < p.cop_diesel) :
    calcular_beneficios_core p capacidad_kw label =
      Except.ok
        { escenario := label
          energia := capacidad_kw * p.H * p.PR * (p.dias : ℚ)
          diesel := capacidad_kw * p.H * p.PR * (p.dias : ℚ) / p.kwh_por_litro
          co2 := capacidad_kw * p.H * p.PR * (p.dias : ℚ) / p.kwh_por_litro
                   * p.co2_por_litro
          ahorro := capacidad_kw * p.H * p.PR * (p.dias : ℚ) / p.kwh_por_litro
                   * p.cop_diesel } ∧
    calcular_beneficios_core paramsE2E 1000 "Mediana (1 MW)" =
      Except.ok { escenario := "Mediana (1 MW)", energia := 108000,
                  diesel := 36000, co2 := 79200, ahorro := 91929240 } := by
  constructor
  · simp only [calcular_beneficios_core, if_neg hk.ne', energia_generada_kwh,
      diesel_ahorrado_l, co2_ev_l, ahorro_cop]
  · simp only [calcular_beneficios_core, paramsE2E, energia_generada_kwh,
      diesel_ahorrado_l, co2_ev_l, ahorro_cop]
    norm_num

/-- Witness for C1 at the end-to-end scenario itself. -/
theorem C1_beneficios_formulas_witness :
    calcular_beneficios_core paramsE2E 1000 "Mediana (1 MW)" =
      Except.ok { escenario := "Mediana (1 MW)", energia := 108000,
                  diesel := 36000, co2 := 79200, ahorro := 91929240 } :=
  (C1_beneficios_formulas paramsE2E 1000 "Mediana (1 MW)"
    (by norm_num) (by norm_num [paramsE2E]) (by norm_num [paramsE2E])
    (by norm_num [paramsE2E]) (by norm_num [paramsE2E])
    (by norm_num [paramsE2E]) (by norm_num [paramsE2E])
    (by norm_num [paramsE2E]) (by norm_num [paramsE2E])).2

/-- The end-to-end parameters with `kwh_por_litro` replaced by `-1`
(the sidebar `number_input` at line 26 has no lower bound, so a negative
value is enterable). -/
def paramsNegK : Params := { paramsE2E with kwh_por_litro := -1 }

/-- The end-to-end parameters with `kwh_por_litro` replaced by `0`. -/
def paramsZeroK : Params := { paramsE2E with kwh_por_litro := 0 }

/-- C2 counterexample: at `kwh_por_litro = -1` (non-positive) the code
raises no error at all — it performs the division and returns a finite
(negative) numeric result, contradicting "for every non-positive
kwh_per_liter the calculation fails and never returns a numeric
result". -/
theorem C2_negative_kwh_counterexample :
    calcular_beneficios_core paramsNegK 1000 "Mediana (1 MW)" =
      Except.ok { escenario := "Mediana (1 MW)", energia := 108000,
                  diesel := -108000, co2 := -237600,
                  ahorro := -275787720 } := by
  simp only [calcular_beneficios_core, paramsNegK, paramsE2E,
    energia_generada_kwh, diesel_ahorrado_l, co2_ev_l, ahorro_cop]
  norm_num

/-- C2 amended: exactly at `kwh_por_litro = 0` the calculation fails with
an uncaught `ZeroDivisionError` (surfaced, not recovered; never infinity,
NaN or a numeric result); for strictly negative `kwh_por_litro` the
division succeeds and a finite numeric result is returned. -/
theorem C2_zero_kwh_raises (p : Params) (capacidad_kw : ℚ) (label : String)
    (h : p.kwh_por_litro = 0) :
    calcular_beneficios_core p capacidad_kw label =
      Except.error ScriptError.zeroDivision ∧
    ∀ q : Params, ∀ c : ℚ, ∀ l : String, q.kwh_por_litro < 0 →
      ∃ b : Beneficios, calcular_beneficios_core q c l = Except.ok b := by
  constructor
  · simp [calcular_beneficios_core, h]
  · intro q c l hq
    refine ⟨{ escenario := l, energia := energia_generada_kwh q c,
              diesel := diesel_ahorrado_l q c, co2 := co2_ev_l q c,
              ahorro := ahorro_cop q c }, ?_⟩
    simp [calcular_beneficios_core, hq.ne]

/-- Witness for C2 amended at `kwh_por_litro = 0`. -/
theorem C2_zero_kwh_raises_witness :
    calcular_beneficios_core paramsZeroK 1000 "Mediana (1 MW)" =
      Except.error ScriptError.zeroDivision :=
  (C2_zero_kwh_raises paramsZeroK 1000 "Mediana (1 MW)"
    (by norm_num [paramsZeroK, paramsE2E])).1

/-- C5 counterexample: the calculator is not free of external writes: a
call with the empty `resultados` list returns a list with one new entry,
so the append to the shared result list is performed by
`calcular_beneficios` itself (lines 96-102), not by the surrounding
dashboard logic. -/
theorem C5_calculator_appends_counterexample :
    calcular_beneficios paramsE2E 100 "Pequeña (100 kW)" [] =
      Except.ok [{ escenario := "Pequeña (100 kW)", energia := 10800,
                   diesel := 3600, co2 := 7920, ahorro := 9192924 }] ∧
    ([] : List Beneficios) ≠
      [{ escenario := "Pequeña (100 kW)", energia := 10800,
         diesel := 3600, co2 := 7920, ahorro := 9192924 }] := by
  constructor
  · simp only [calcular_beneficios, calcular_beneficios_core, paramsE2E,
      energia_generada_kwh, diesel_ahorrado_l, co2_ev_l, ahorro_cop]
    norm_num [Except.map]
  · simp

/-- C5 amended: the calculation is deterministic — two calls with
identical inputs (including the same `resultados` state) return identical
output — and its only write outside its inputs is appending its own
result dict to the surrounding `resultados` list: whenever the arithmetic
core yields `b`, the call turns `resultados` into `resultados ++ [b]`,
preserving every earlier entry. -/
theorem C5_deterministic_self_append (p : Params) (capacidad_kw : ℚ)
    (label : String) (resultados : List Beneficios) (b : Beneficios)
    (h : calcular_beneficios_core p capacidad_kw label = Except.ok b) :
    calcular_beneficios p capacidad_kw label resultados =
      calcular_beneficios p capacidad_kw label resultados ∧
    calcular_beneficios p capacidad_kw label resultados =
      Except.ok (resultados ++ [b]) := by
  exact ⟨rfl, by simp [calcular_beneficios, h, Except.map]⟩

/-- Witness for C5 amended at the small scenario with a nonempty prior
result list. -/
theorem C5_deterministic_self_append_witness :
    calcular_beneficios paramsE2E 100 "Pequeña (100 kW)"
        [{ escenario := "previo", energia := 1, diesel := 1, co2 := 1,
           ahorro := 1 }] =
      Except.ok
        [{ escenario := "previo", energia := 1, diesel := 1, co2 := 1,
           ahorro := 1 },
         { escenario := "Pequeña (100 kW)", energia := 10800,
           diesel := 3600, co2 := 7920, ahorro := 9192924 }] :=
  (C5_deterministic_self_append paramsE2E 100 "Pequeña (100 kW)" _ _
    (by simp only [calcular_beneficios_core, paramsE2E, energia_generada_kwh,
          diesel_ahorrado_l, co2_ev_l, ahorro_cop]
        norm_num)).2

/-- C6: with all of H, PR, dias and the three constants positive, each of
the four derived metrics is strictly increasing in `capacidad_kw`. -/
theorem C6_metrics_strict_mono (p : Params) (c₁ c₂ : ℚ)
    (hH : 0 < p.H) (hPR : 0 < p.PR) (hd : 0 < p.dias)
    (hk : 0 < p.kwh_por_litro) (hco2 : 0 < p.co2_por_litro)
    (hcop : 0 < p.cop_diesel) (hc : c₁ < c₂) :
    energia_generada_kwh p c₁ < energia_generada_kwh p c₂ ∧
    diesel_ahorrado_l p c₁ < diesel_ahorrado_l p c₂ ∧
    co2_ev_l p c₁ < co2_ev_l p c₂ ∧
    ahorro_cop p c₁ < ahorro_cop p c₂ := by
  have hdq : (0 : ℚ) < (p.dias : ℚ) := by exact_mod_cast hd
  have he : energia_generada_kwh p c₁ < energia_generada_kwh p c₂ := by
    unfold energia_generada_kwh; gcongr
  have hdl : diesel_ahorrado_l p c₁ < diesel_ahorrado_l p c₂ := by
    unfold diesel_ahorrado_l; gcongr
  refine ⟨he, hdl, ?_, ?_⟩
  · unfold co2_ev_l; gcongr
  · unfold ahorro_cop; gcongr

/-- Witness for C6: the small tier (100 kW) yields strictly smaller
metrics than the medium tier (1000 kW) at the default parameters. -/
theorem C6_metrics_strict_mono_witness :
    energia_generada_kwh paramsE2E 100 < energia_generada_kwh paramsE2E 1000 ∧
    diesel_ahorrado_l paramsE2E 100 < diesel_ahorrado_l paramsE2E 1000 ∧
    co2_ev_l paramsE2E 100 < co2_ev_l paramsE2E 1000 ∧
    ahorro_cop paramsE2E 100 < ahorro_cop paramsE2E 1000 :=
  C6_metrics_strict_mono paramsE2E 100 1000
    (by norm_num [paramsE2E]) (by norm_num [paramsE2E])
    (by norm_num [paramsE2E]) (by norm_num [paramsE2E])
    (by norm_num [paramsE2E]) (by norm_num [paramsE2E]) (by norm_num)

/-- Python `str.capitalize()`: first character uppercased, the rest
lowercased (pandas `df["Tipo"].str.capitalize()`, line 43). -/
def str_capitalize (s : String) : String :=
  match s.data with
  | [] => ""
  | c :: cs => String.mk (c.toUpper :: cs.map Char.toLower)

/-- Case-folding used to state "equal up to letter case". -/
def str_lower (s : String) : String :=
  String.mk (s.data.map Char.toLower)

/-- Python `sub in s` substring membership. -/
def str_contains (s sub : String) : Bool :=
  decide (sub.data <:+: s.data)

/-- `df = df.sort_values("Fecha")` (lines 8 and 44): stable sort of the
records by date. -/
def sort_values_fecha (df : List DemandRecord) : List DemandRecord :=
  df.mergeSort fun a b => a.fecha ≤ b.fecha

/-- `df_predicha = df[df["Tipo"] == "predicha"].copy()` (line 31): the
rows whose `Tipo` is exactly the lowercase string `"predicha"`.  Note
this runs before the capitalize normalization of line 43. -/
def df_predicha (df : List DemandRecord) : List DemandRecord :=
  df.filter fun r => r.tipo == "predicha"

/-- `df_sim = df_predicha.head(dias)` (line 32): the first `dias`
filtered rows. -/
def df_sim (df : List DemandRecord) (dias : Nat) : List DemandRecord :=
  (df_predicha df).take dias

/-- `df["Tipo"] = df["Tipo"].str.capitalize()` (line 43): the contents of
the data frame after the in-place column overwrite. -/
def normalizar_tipo (df : List DemandRecord) : List DemandRecord :=
  df.map fun r => { r with tipo := str_capitalize r.tipo }

/-- A data frame whose `Fecha` column is non-decreasing, i.e. the state
of `df` after `sort_values("Fecha")`. -/
def SortedByFecha (df : List DemandRecord) : Prop :=
  df.Pairwise fun a b => a.fecha ≤ b.fecha

/-- Ten predicted records on consecutive dates (the spec's "10 available
predicted records" scenario). -/
def dfDiez : List DemandRecord :=
  (List.range 10).map fun i => { fecha := i, activa := 100, tipo := "predicha" }

/-- C3: for any record set and any horizon, `df_sim` returns the first
`min(dias, available)` predicted records: its length is
`min dias (number of matching rows)`, it is a prefix of the filtered rows,
it stays in date order whenever the input is date-sorted, and when fewer
matching rows exist than `dias` it is exactly all of them — no error is
ever raised. -/
theorem C3_df_sim_truncates (df : List DemandRecord) (dias : Nat)
    (hdias : dias = 7 ∨ dias = 15 ∨ dias = 30) (hs : SortedByFecha df) :
    (df_sim df dias).length = min dias (df_predicha df).length ∧
    (df_sim df dias) <+: df_predicha df ∧
    SortedByFecha (df_sim df dias) ∧
    ((df_predicha df).length ≤ dias → df_sim df dias = df_predicha df) := by
  refine ⟨List.length_take .., List.take_prefix .., ?_, fun h => List.take_of_length_le h⟩
  exact List.Pairwise.sublist (List.take_sublist dias (df_predicha df))
    (List.Pairwise.filter _ hs)

/-- Witness for C3: 10 available predicted records with horizon 30 yield
exactly the 10 records (no error). -/
theorem C3_df_sim_truncates_witness :
    (df_sim dfDiez 30).length = min 30 (df_predicha dfDiez).length ∧
    df_sim dfDiez 30 = df_predicha dfDiez ∧ (df_sim dfDiez 30).length = 10 := by
  have h := C3_df_sim_truncates dfDiez 30 (by decide)
    (by unfold SortedByFecha; decide)
  exact ⟨h.1, h.2.2.2 (by decide), by decide⟩

/-- A record labelled with a capitalized variant of the predicted label. -/
def recPredichaMayus : DemandRecord := { fecha := 0, activa := 1, tipo := "Predicha" }

/-- C7 counterexample: a record whose `Tipo` is `"Predicha"` — equal to
the predicted label up to letter case — is NOT selected by the
simulation-horizon filter of line 31, because that filter compares
against the exact lowercase string `"predicha"` and runs before the
capitalize normalization of line 43. -/
theorem C7_uppercase_excluded_counterexample :
    str_lower recPredichaMayus.tipo = str_lower "predicha" ∧
    df_predicha [recPredichaMayus] = [] ∧
    df_sim [recPredichaMayus] 30 = [] := by
  refine ⟨by decide, ?_, ?_⟩ <;> decide

/-- C7 amended: the horizon filter is case-SENSITIVE: a record is
selected iff its `Tipo` is exactly the lowercase `"predicha"`; the
capitalize normalization (`str.capitalize`, line 43) happens only after
the filter, on the plotting copy of the frame, mapping e.g. `"predicha"`
and `"PREDICHA"` alike to `"Predicha"`. -/
theorem C7_filter_case_sensitive (df : List DemandRecord) (r : DemandRecord) :
    (r ∈ df_predicha df ↔ r ∈ df ∧ r.tipo = "predicha") ∧
    str_capitalize "predicha" = "Predicha" ∧
    str_capitalize "PREDICHA" = "Predicha" ∧
    str_capitalize "Predicha" = "Predicha" := by
  refine ⟨?_, by decide, by decide, by decide⟩
  simp [df_predicha, List.mem_filter]

/-- Witness for C7 amended: concrete membership check on a two-record
frame, one lowercase (selected) and one capitalized (rejected). -/
theorem C7_filter_case_sensitive_witness :
    ({ fecha := 1, activa := 2, tipo := "predicha" } ∈
      df_predicha [recPredichaMayus, { fecha := 1, activa := 2, tipo := "predicha" }] ↔
      ({ fecha := 1, activa := 2, tipo := "predicha" } : DemandRecord) ∈
        [recPredichaMayus, { fecha := 1, activa := 2, tipo := "predicha" }] ∧
      ({ fecha := 1, activa := 2, tipo := "predicha" } : DemandRecord).tipo = "predicha") :=
  (C7_filter_case_sensitive
    [recPredichaMayus, { fecha := 1, activa := 2, tipo := "predicha" }]
    { fecha := 1, activa := 2, tipo := "predicha" }).1

/-- A lowercase predicted record as loaded from the CSV. -/
def recPredichaMin : DemandRecord := { fecha := 3, activa := 7, tipo := "predicha" }

/-- C8 counterexample: the loaded records are NOT read-only after load —
the in-place column assignment `df["Tipo"] = df["Tipo"].str.capitalize()`
(line 43) changes the `Tipo` value of a loaded record from `"predicha"`
to `"Predicha"`. -/
theorem C8_tipo_mutated_counterexample :
    normalizar_tipo [recPredichaMin] =
      [{ fecha := 3, activa := 7, tipo := "Predicha" }] ∧
    normalizar_tipo [recPredichaMin] ≠ [recPredichaMin] := by
  constructor <;> decide

/-- C8 amended: the one mutation of the loaded record set during a render
cycle is the line-43 `Tipo` capitalization: it rewrites every `Tipo`
through `str.capitalize` in place, while preserving the number of
records and every `Fecha` and `ACTIVA` value; the dates and demand
values are never modified by any operation. -/
theorem C8_only_tipo_changes (df : List DemandRecord) :
    (normalizar_tipo df).map DemandRecord.fecha = df.map DemandRecord.fecha ∧
    (normalizar_tipo df).map DemandRecord.activa = df.map DemandRecord.activa ∧
    (normalizar_tipo df).map DemandRecord.tipo =
      (df.map DemandRecord.tipo).map str_capitalize ∧
    (normalizar_tipo df).length = df.length := by
  refine ⟨?_, ?_, ?_, by simp [normalizar_tipo]⟩ <;>
    simp [normalizar_tipo, Function.comp]

/-- One call to the Streamlit render surface, in program order: sidebar
widgets / headers / markdown captions, `st.plotly_chart` charts and
`st.metric` metrics (identified by their fixed label text). -/
inductive RenderEvent where
  | widget (txt : String)
  | chart (txt : String)
  | metric (txt : String)
deriving Repr, DecidableEq

/-- The input CSV as a raw table: its column names and, for the three
required columns when present, the parsed records. -/
structure CsvFile where
  cols : List String
  records : List DemandRecord
deriving Repr, DecidableEq

/-- `st.markdown` text of line 39: an f-string with no placeholder, so
the demand-overview caption is this constant, hardcoding "30 días"
whatever horizon is selected. -/
def caption_demanda : String :=
  "🗓️ Mostrando demanda energética para los próximos **30 días** predichos."

/-- `st.markdown` text of line 86: the benefits caption, interpolating
the selected number of days. -/
def caption_beneficios (dias : Nat) : String :=
  "🧮 Cálculo acumulado de beneficios para un horizonte de **" ++
    toString dias ++ " días**."

/-- `st.title` text of line 36. -/
def titulo_principal : String := "☀️ Simulación de Energía Solar - Leticia, Colombia"

/-- `st.subheader` text of line 38. -/
def subtitulo_demanda : String := "📈 Demanda Energética Predicha (Horizonte Seleccionado)"

/-- `st.subheader` text of line 85. -/
def subtitulo_beneficios : String := "🌞 Beneficios por Escenario Solar"

/-- Line-chart title (lines 53-68, shown by `st.plotly_chart`, line 80). -/
def chart_linea : String := "Serie Temporal de Demanda Energética"

/-- Bar-chart title (lines 116-127). -/
def chart_barras : String := "Comparativa de Beneficios"

/-- `st.caption` text of line 130. -/
def caption_final : String :=
  "Datos de demanda simulada para Leticia, Amazonas. Parámetros personalizables para análisis energético, económico y ambiental."

/-- The sidebar widgets of lines 11-28, all rendered before any data
access beyond `read_csv`. -/
def sidebar_events : List RenderEvent :=
  [.widget "🔧 Parámetros de Simulación",
   .widget "Radiación Solar H (kWh/m²)",
   .widget "Performance Ratio (PR)",
   .widget "Horizonte de Predicción",
   .widget "Escenarios de Capacidad",
   .widget "Pequeña (100 kW)",
   .widget "Mediana (1 MW)",
   .widget "Grande (5 MW)",
   .widget "kWh/L (Diesel)",
   .widget "CO₂/L (kg)",
   .widget "COP/L (Precio diesel)"]

/-- Line 111: `100 if "Pequeña" in nombre else 1000 if "Mediana" in nombre
else 5000`. -/
def capacidad_para (nombre : String) : ℚ :=
  if str_contains nombre "Pequeña" then 100
  else if str_contains nombre "Mediana" then 1000
  else 5000

/-- The `escenarios` dict of lines 20-24 paired with its checkbox
states, in insertion order. -/
def escenarios_list (esc : Escenarios) : List (String × Bool) :=
  [("Pequeña (100 kW)", esc.pequena),
   ("Mediana (1 MW)", esc.mediana),
   ("Grande (5 MW)", esc.grande)]

/-- The four `st.metric` calls of lines 104-107, labelled per scenario. -/
def metric_events (label : String) : List RenderEvent :=
  [.metric (label ++ " - Energía Generada Total"),
   .metric (label ++ " - Diésel Ahorrado"),
   .metric (label ++ " - CO₂ Evitado"),
   .metric (label ++ " - Ahorro Económico")]

/-- Lines 46-50: the first predicted date, `None` when no record is
labelled `"Predicha"` (after normalization). -/
def inicio_pred (df : List DemandRecord) : Option Nat :=
  if "Predicha" ∈ df.map DemandRecord.tipo then
    ((df.filter fun r => r.tipo == "Predicha").map DemandRecord.fecha).min?
  else none

/-- The scenario loop of lines 109-113: for each active scenario it opens
an expander, runs `calcular_beneficios` (appending to `resultados` and
rendering four metrics), and dies on the first uncaught exception.
Returns the events it emits, the final `resultados`, and the error if
any. -/
def run_escenarios (p : Params) :
    List (String × Bool) → List Beneficios →
    List RenderEvent × List Beneficios × Option ScriptError
  | [], res => ([], res, none)
  | (nombre, activo) :: rest, res =>
    if activo then
      match calcular_beneficios_core p (capacidad_para nombre) nombre with
      | .error e => ([.widget ("🔋 Resultados para " ++ nombre)], res, some e)
      | .ok b =>
        let t := run_escenarios p rest (res ++ [b])
        (.widget ("🔋 Resultados para " ++ nombre) :: (metric_events nombre ++ t.1),
         t.2)
    else run_escenarios p rest res

/-- The whole script, top to bottom, as a function from the input file
and the sidebar state to the ordered render-event list, the final
`resultados` list, and the first uncaught exception (if any); execution
stops at that exception.  Column accesses raise `missingColumn` exactly
where the source first touches the column: `Fecha` in `read_csv`
(line 7), `Tipo` in the filter (line 31), `ACTIVA` in `px.line`
(line 53). -/
def run_script (file : CsvFile) (p : Params) (esc : Escenarios) :
    List RenderEvent × List Beneficios × Option ScriptError :=
  if "Fecha" ∈ file.cols then
    let df := sort_values_fecha file.records
    let evs := sidebar_events
    if "Tipo" ∈ file.cols then
      let _dfsim := df_sim df p.dias
      let evs := evs ++ [.widget titulo_principal, .widget subtitulo_demanda,
                         .widget caption_demanda]
      let dfN := sort_values_fecha (normalizar_tipo df)
      let _inicio := inicio_pred dfN
      if "ACTIVA" ∈ file.cols then
        let evs := evs ++ [.chart chart_linea, .widget subtitulo_beneficios,
                           .widget (caption_beneficios p.dias)]
        let t := run_escenarios p (escenarios_list esc) []
        match t.2.2 with
        | some e => (evs ++ t.1, t.2.1, some e)
        | none =>
          (evs ++ t.1 ++
             (if t.2.1.isEmpty then [] else [.chart chart_barras]) ++
             [.widget caption_final],
           t.2.1, none)
      else (evs, [], some (.missingColumn "ACTIVA"))
    else (evs, [], some (.missingColumn "Tipo"))
  else ([], [], some (.missingColumn "Fecha"))

/-- `True` for the events the spec counts as "chart or metric". -/
def isChartOrMetric : RenderEvent → Bool
  | .chart _ => true
  | .metric _ => true
  | .widget _ => false

/-- A well-formed input file holding the ten predicted records. -/
def fileDiez : CsvFile := { cols := ["Fecha", "ACTIVA", "Tipo"], records := dfDiez }

/-- A well-formed input file with no records at all. -/
def fileVacio : CsvFile := { cols := ["Fecha", "ACTIVA", "Tipo"], records := [] }

/-- An input file lacking the `ACTIVA` column. -/
def fileSinActiva : CsvFile := { cols := ["Fecha", "Tipo"], records := [] }

/-- All three scenario checkboxes ticked (the defaults). -/
def escTodos : Escenarios := { pequena := true, mediana := true, grande := true }

/-- C4: the computed benefit results (and the final error state) depend
only on the sidebar parameters and toggles, never on the loaded demand
records: two runs on any two files that both have the required columns
produce identical `resultados` lists; the filtered horizon records feed
no benefit computation. -/
theorem C4_resultados_sin_depender_de_datos (f₁ f₂ : CsvFile) (p : Params)
    (esc : Escenarios)
    (h₁F : "Fecha" ∈ f₁.cols) (h₁T : "Tipo" ∈ f₁.cols) (h₁A : "ACTIVA" ∈ f₁.cols)
    (h₂F : "Fecha" ∈ f₂.cols) (h₂T : "Tipo" ∈ f₂.cols) (h₂A : "ACTIVA" ∈ f₂.cols) :
    (run_script f₁ p esc).2 = (run_script f₂ p esc).2 := by
  simp only [run_script, if_pos h₁F, if_pos h₁T, if_pos h₁A,
    if_pos h₂F, if_pos h₂T, if_pos h₂A]

/-- Witness for C4: ten predicted records versus an empty record set give
identical benefit results at the default parameters and toggles. -/
theorem C4_resultados_sin_depender_de_datos_witness :
    (run_script fileDiez paramsE2E escTodos).2 =
      (run_script fileVacio paramsE2E escTodos).2 :=
  C4_resultados_sin_depender_de_datos fileDiez fileVacio paramsE2E escTodos
    (by decide) (by decide) (by decide) (by decide) (by decide) (by decide)

/-- C9: on every successful render the demand-overview caption emitted
after the horizon selection is the fixed string hardcoding "30 días"
(the same constant for every selected horizon, since the f-string of
line 39 interpolates nothing), while the benefits caption of line 86
interpolates the actually selected number of days. -/
theorem C9_caption_30_dias_fijo (file : CsvFile) (p : Params) (esc : Escenarios)
    (hF : "Fecha" ∈ file.cols) (hT : "Tipo" ∈ file.cols)
    (hA : "ACTIVA" ∈ file.cols)
    (hdias : p.dias = 7 ∨ p.dias = 15 ∨ p.dias = 30) :
    RenderEvent.widget caption_demanda ∈ (run_script file p esc).1 ∧
    ("30 días").data <:+: caption_demanda.data ∧
    RenderEvent.widget (caption_beneficios p.dias) ∈ (run_script file p esc).1 ∧
    (toString p.dias ++ " días").data <:+: (caption_beneficios p.dias).data := by
  have hmem : RenderEvent.widget caption_demanda ∈ (run_script file p esc).1 ∧
      RenderEvent.widget (caption_beneficios p.dias) ∈ (run_script file p esc).1 := by
    simp only [run_script, if_pos hF, if_pos hT, if_pos hA]
    split <;> constructor <;> simp [sidebar_events]
  refine ⟨hmem.1, by decide, hmem.2, ?_⟩
  rcases hdias with h | h | h <;> rw [h] <;> decide

/-- Witness for C9 with horizon 7: the caption pair on a concrete file. -/
theorem C9_caption_30_dias_fijo_witness :
    RenderEvent.widget caption_demanda ∈
      (run_script fileDiez { paramsE2E with dias := 7 } escTodos).1 ∧
    ("30 días").data <:+: caption_demanda.data ∧
    RenderEvent.widget (caption_beneficios 7) ∈
      (run_script fileDiez { paramsE2E with dias := 7 } escTodos).1 ∧
    (toString 7 ++ " días").data <:+: (caption_beneficios 7).data :=
  C9_caption_30_dias_fijo fileDiez { paramsE2E with dias := 7 } escTodos
    (by decide) (by decide) (by decide) (Or.inl rfl)

/-- C10: whenever the input file lacks one of the required columns
`Fecha`, `ACTIVA` or `Tipo`, the script dies with a `missingColumn`
error and the events rendered up to that point contain no chart and no
metric. -/
theorem C10_columna_faltante_aborta (file : CsvFile) (p : Params)
    (esc : Escenarios)
    (h : "Fecha" ∉ file.cols ∨ "ACTIVA" ∉ file.cols ∨ "Tipo" ∉ file.cols) :
    (∃ c, (run_script file p esc).2.2 = some (ScriptError.missingColumn c)) ∧
    ∀ e ∈ (run_script file p esc).1, isChartOrMetric e = false := by
  by_cases hF : "Fecha" ∈ file.cols
  · by_cases hT : "Tipo" ∈ file.cols
    · have hA : "ACTIVA" ∉ file.cols := by tauto
      simp only [run_script, if_pos hF, if_pos hT, if_neg hA]
      exact ⟨⟨"ACTIVA", rfl⟩, by decide⟩
    · simp only [run_script, if_pos hF, if_neg hT]
      exact ⟨⟨"Tipo", rfl⟩, by decide⟩
  · simp only [run_script, if_neg hF]
    exact ⟨⟨"Fecha", rfl⟩, by decide⟩

/-- Witness for C10 on a file lacking `ACTIVA`. -/
theorem C10_columna_faltante_aborta_witness :
    (∃ c, (run_script fileSinActiva paramsE2E escTodos).2.2 =
      some (ScriptError.missingColumn c)) ∧
    ∀ e ∈ (run_script fileSinActiva paramsE2E escTodos).1,
      isChartOrMetric e = false :=
  C10_columna_faltante_aborta fileSinActiva paramsE2E escTodos
    (Or.inr (Or.inl (by decide)))
